import Mathlib

/-!
Shallow embedding of the deployment-orchestration scripts of this
repository: `src/vercel-deploy.ts` (TypeScript) and `src/vercel.sh`
(bash + jq).  Remote API calls are modelled by an `Api` record giving
the outcome of each of the distinct calls a single run can issue; a run
is a pure function from the environment and the `Api` record to an exit
code, the list of requests issued (in order), and the error messages
printed by the `error` helper (which in the TypeScript source always
calls `exit(1)`).
-/

/-- A deployment record as read from the listing response.
`githubCommitRef` models the optionally-chained `meta?.githubCommitRef`
(absent `meta` or absent field both become `none`); `name` and `state`
are optional fields of the SDK response; `uid` is required. -/
structure Deployment where
  uid : String
  name : Option String
  githubCommitRef : Option String
  state : Option String
deriving DecidableEq

/-- An environment-variable record as read from the listing response. -/
structure EnvVar where
  id : String
  key : String
deriving DecidableEq

/-- The process environment: the four variables the script reads.
`none` models an unset variable; `some s` a variable set to `s`. -/
structure Env where
  VERCEL_TOKEN : Option String
  VERCEL_PROJECT_ID : Option String
  VERCEL_ORG_ID : Option String
  FE_BRANCH : Option String
deriving DecidableEq

/-- The configuration record built by `getConfig`. -/
structure Config where
  token : String
  projectId : String
  orgId : String
  branch : String
  targetApiUrl : String
deriving DecidableEq

/-- Request body of the env-var create/edit calls. -/
structure EnvBody where
  key : String
  value : String
  type : String
  target : List String
deriving DecidableEq

/-- The `gitSource` field of the create-deployment body. -/
structure GitSource where
  type : String
  ref : String
deriving DecidableEq

/-- The remote requests a run can issue, with their bodies. -/
inductive Request where
  | listDeployments (projectId : String) (limit : Nat)
  | listEnvs (idOrName : String)
  | createEnvVar (idOrName : String) (body : EnvBody)
  | editEnvVar (idOrName : String) (id : String) (body : EnvBody)
  | createDeploy (name : String) (project : String) (target : String) (git : GitSource)
  | redeploy (deploymentId : String) (target : String)
deriving DecidableEq

/-- Response of a create-deployment call (`url` is optional). -/
structure DeployResponse where
  url : Option String
  uid : String
deriving DecidableEq

/-- Outcome of each remote call a single run can issue.  A `.error`
outcome models the promise rejecting (caught by the corresponding
`try/catch`); for the two listing calls the `Option` models a response
with the `deployments` / `envs` field absent. -/
structure Api where
  getDeployments : Except String (Option (List Deployment))
  getEnvironmentVariables : Except String (Option (List EnvVar))
  createEnvironmentVariable : Except String Unit
  editEnvironmentVariable : Except String Unit
  createDeployment : Except String DeployResponse
  redeployDeployment : Except String DeployResponse

/-- Observable result of a run: process exit code, the requests issued
in order, and the messages printed through the fatal `error` helper. -/
structure RunResult where
  exitCode : Nat
  trace : List Request
  errors : List String
deriving DecidableEq

/-- Is `needle` a contiguous sublist of `hay`?  (Semantics of
JavaScript `String.prototype.includes` at the character level; the
empty needle is contained in everything.) -/
def containsSublist (needle : List Char) : List Char → Bool
  | [] => needle.isEmpty
  | c :: rest => needle.isPrefixOf (c :: rest) || containsSublist needle rest

/-- `s.toLowerCase().includes(pat.toLowerCase())` from the source. -/
def caseInsensitiveContains (s pat : String) : Bool :=
  containsSublist pat.toLower.toList s.toLower.toList

/-- The branch half of the filter in `checkExistingDeployment`:
`deployment.meta?.githubCommitRef === branch ||
 deployment.name?.toLowerCase().includes(branch.toLowerCase())`. -/
def matchesBranch (d : Deployment) (branch : String) : Bool :=
  d.githubCommitRef == some branch ||
    (match d.name with
     | some n => caseInsensitiveContains n branch
     | none => false)

/-- The state half of the filter:
`deployment.state === 'READY' || deployment.state === 'BUILDING'`. -/
def isActiveState (d : Deployment) : Bool :=
  d.state == some ("READY") || d.state == some ("BUILDING")

/-- The full filter predicate passed to `find` in the source. -/
def deployMatches (d : Deployment) (branch : String) : Bool :=
  matchesBranch d branch && isActiveState d

/-- The pure selection inside `checkExistingDeployment`:
`deployments.find(...)` followed by `existingDeployment?.uid || null`
(a found deployment with falsy — empty — uid still yields null). -/
def selectDeployment (ds : List Deployment) (branch : String) : Option String :=
  match ds.find? (fun d => deployMatches d branch) with
  | some d => if d.uid == "" then none else some d.uid
  | none => none

/-- The pure selection inside `getEnvVarId`:
`response.envs.find(env => env.key === 'VITE_API_URL')` followed by
`viteApiUrlEnv?.id || null`. -/
def selectEnvVar (envs : List EnvVar) : Option String :=
  match envs.find? (fun v => v.key == "VITE_API_URL") with
  | some v => if v.id == "" then none else some v.id
  | none => none

/-- JavaScript truthiness of `process.env[name]`: an unset variable is
`undefined` (falsy) and the empty string is falsy. -/
def truthyStr : Option String → Bool
  | none => false
  | some s => !(s == "")

/-- `validateEnvironment`: walks `requiredVars` in order and calls the
fatal `error` helper at the first falsy one. -/
def validateEnvironment (e : Env) : Except String Unit :=
  if !truthyStr e.VERCEL_TOKEN then
    .error ("Missing required environment variable: VERCEL_TOKEN")
  else if !truthyStr e.VERCEL_PROJECT_ID then
    .error ("Missing required environment variable: VERCEL_PROJECT_ID")
  else if !truthyStr e.VERCEL_ORG_ID then
    .error ("Missing required environment variable: VERCEL_ORG_ID")
  else if !truthyStr e.FE_BRANCH then
    .error ("Missing required environment variable: FE_BRANCH")
  else .ok ()

/-- `getConfig`: validates the environment, then builds the record; the
template literal for `targetApiUrl` concatenates around `FE_BRANCH`. -/
def getConfig (e : Env) : Except String Config :=
  match validateEnvironment e with
  | .error msg => .error msg
  | .ok _ =>
    .ok { token := e.VERCEL_TOKEN.getD ("")
          projectId := e.VERCEL_PROJECT_ID.getD ("")
          orgId := e.VERCEL_ORG_ID.getD ("")
          branch := e.FE_BRANCH.getD ("")
          targetApiUrl :=
            "https://api.pr-" ++ e.FE_BRANCH.getD ("") ++ ".deploy-preview.mrdibre.com" }

/-- `checkExistingDeployment`: issues the listing request; a rejected
call hits the catch block, which calls the fatal `error` helper; a
response without a `deployments` field yields `null`; otherwise the
pure selection runs. -/
def checkExistingDeployment (api : Api) (projectId branch : String) :
    List Request × Except String (Option String) :=
  ([Request.listDeployments projectId 50],
   match api.getDeployments with
   | .error err => .error ("Failed to fetch deployments: " ++ err)
   | .ok none => .ok none
   | .ok (some ds) => .ok (selectDeployment ds branch))

/-- `getEnvVarId`: same shape as `checkExistingDeployment` for the
env-var listing. -/
def getEnvVarId (api : Api) (projectId : String) :
    List Request × Except String (Option String) :=
  ([Request.listEnvs projectId],
   match api.getEnvironmentVariables with
   | .error err => .error ("Failed to fetch environment variables: " ++ err)
   | .ok none => .ok none
   | .ok (some envs) => .ok (selectEnvVar envs))

/-- The body used by both the create and the edit env-var calls. -/
def envBody (targetApiUrl : String) : EnvBody :=
  { key := "VITE_API_URL", value := targetApiUrl, type := "plain", target := ["preview"] }

/-- The upsert request `updateEnvVar` issues, as a function of the
looked-up identifier. -/
def upsertRequest (projectId : String) (envVarId : Option String)
    (targetApiUrl : String) : Request :=
  match envVarId with
  | none => Request.createEnvVar projectId (envBody targetApiUrl)
  | some id => Request.editEnvVar projectId id (envBody targetApiUrl)

/-- `updateEnvVar`: create when no identifier was found, edit that
identifier otherwise; either failure hits the catch block, which calls
the fatal `error` helper. -/
def updateEnvVar (api : Api) (projectId : String) (envVarId : Option String)
    (targetApiUrl : String) : List Request × Except String Unit :=
  match envVarId with
  | none =>
    ([Request.createEnvVar projectId (envBody targetApiUrl)],
     match api.createEnvironmentVariable with
     | .error err => .error ("Failed to update environment variable: " ++ err)
     | .ok _ => .ok ())
  | some id =>
    ([Request.editEnvVar projectId id (envBody targetApiUrl)],
     match api.editEnvironmentVariable with
     | .error err => .error ("Failed to update environment variable: " ++ err)
     | .ok _ => .ok ())

/-- The body of the create-new-deployment request in `createDeployment`. -/
def createDeployRequest (projectId branch : String) : Request :=
  Request.createDeploy ("pr-" ++ branch) projectId ("preview")
    { type := "github", ref := branch }

/-- `createDeployment`: issues the create request; failure hits the
catch block, which calls the fatal `error` helper. -/
def createDeployment (api : Api) (projectId branch : String) :
    List Request × Except String Unit :=
  ([createDeployRequest projectId branch],
   match api.createDeployment with
   | .error err => .error ("Failed to create new deployment: " ++ err)
   | .ok _ => .ok ())

/-- `redeployExisting`: issues the redeploy request; on failure the
catch block only warns, re-reads the configuration with `getConfig`,
and falls back to `createDeployment` once. -/
def redeployExisting (api : Api) (e : Env) (existingDeploymentId : String) :
    List Request × Except String Unit :=
  match api.redeployDeployment with
  | .ok _ => ([Request.redeploy existingDeploymentId ("preview")], .ok ())
  | .error _ =>
    match getConfig e with
    | .error msg => ([Request.redeploy existingDeploymentId ("preview")], .error msg)
    | .ok config =>
      let fallback := createDeployment api config.projectId config.branch
      (Request.redeploy existingDeploymentId ("preview") :: fallback.1, fallback.2)

/-- The `main` function of `src/vercel-deploy.ts`: configuration, the
two lookups, the env-var upsert, then redeploy (with its one-level
fallback) or create.  An `.error` from any helper models that helper
having called `error`, i.e. `exit(1)`; a completed run exits 0. -/
def mainRun (e : Env) (api : Api) : RunResult :=
  match getConfig e with
  | .error msg => { exitCode := 1, trace := [], errors := [msg] }
  | .ok config =>
    let s1 := checkExistingDeployment api config.projectId config.branch
    match s1.2 with
    | .error msg => { exitCode := 1, trace := s1.1, errors := [msg] }
    | .ok existingDeployment =>
      let s2 := getEnvVarId api config.projectId
      match s2.2 with
      | .error msg => { exitCode := 1, trace := s1.1 ++ s2.1, errors := [msg] }
      | .ok envVarId =>
        let s3 := updateEnvVar api config.projectId envVarId config.targetApiUrl
        match s3.2 with
        | .error msg => { exitCode := 1, trace := s1.1 ++ s2.1 ++ s3.1, errors := [msg] }
        | .ok _ =>
          let s4 :=
            match existingDeployment with
            | some depId => redeployExisting api e depId
            | none => createDeployment api config.projectId config.branch
          match s4.2 with
          | .error msg =>
            { exitCode := 1, trace := s1.1 ++ s2.1 ++ s3.1 ++ s4.1, errors := [msg] }
          | .ok _ =>
            { exitCode := 0, trace := s1.1 ++ s2.1 ++ s3.1 ++ s4.1, errors := [] }

/-- Classifier: is a request one of the two deploy-triggering calls? -/
def Request.isDeployCall : Request → Bool
  | .createDeploy .. => true
  | .redeploy .. => true
  | _ => false

/-- Classifier: a create-new-deployment request. -/
def Request.isCreateDeploy : Request → Bool
  | .createDeploy .. => true
  | _ => false

/-- Classifier: a redeploy-by-reference request. -/
def Request.isRedeploy : Request → Bool
  | .redeploy .. => true
  | _ => false

/-- Classifier: a create-env-var request. -/
def Request.isCreateEnv : Request → Bool
  | .createEnvVar .. => true
  | _ => false

/-- Classifier: an edit-env-var request. -/
def Request.isEditEnv : Request → Bool
  | .editEnvVar .. => true
  | _ => false

/-!
Embedding of the deployment-selection filter of `src/vercel.sh`
(`check_existing_deployment`).  The jq program is

  .deployments[]? |
  select(.meta.githubCommitRef == $branch or .name | test($branch)) |
  select(.state == "READY" or .state == "BUILDING") |
  .uid

piped through `head -1`.  In jq the pipe binds loosest, so the first
select's argument parses as

  (.meta.githubCommitRef == $branch or .name) | test($branch)

The `or` always yields a boolean value, and jq's `test` raises a
runtime error when its input is not a string, which aborts processing
with no further output.  The embedding is parametric in the regex
matcher `rtest` used by `test`, so nothing proved below depends on
regex semantics.
-/

/-- A jq value, restricted to the shapes this filter can produce. -/
inductive JqVal where
  | null
  | bool (b : Bool)
  | str (s : String)
deriving DecidableEq

/-- jq truthiness: everything but `null` and `false` is truthy. -/
def jqTruthy : JqVal → Bool
  | .null => false
  | .bool b => b
  | .str _ => true

/-- The jq value of `.name` on a deployment object. -/
def jqNameVal (d : Deployment) : JqVal :=
  match d.name with
  | none => .null
  | some s => .str s

/-- jq `test(pat)`: regex match on a string input, a runtime error on
any other input. -/
def jqTest (rtest : String → String → Bool) : JqVal → String → Except String Bool
  | .str s, pat => .ok (rtest s pat)
  | .bool _, _ => .error ("boolean cannot be matched, as it is not a string")
  | .null, _ => .error ("null cannot be matched, as it is not a string")

/-- The argument of the first `select`, as jq parses it:
`(.meta.githubCommitRef == $branch or .name) | test($branch)`.
The `or` yields a boolean, which is then piped into `test`. -/
def jqBranchFilter (rtest : String → String → Bool) (d : Deployment)
    (branch : String) : Except String Bool :=
  let orResult : Bool := (d.githubCommitRef == some branch) || jqTruthy (jqNameVal d)
  jqTest rtest (JqVal.bool orResult) branch

/-- Streaming evaluation of the jq pipeline over the deployment list,
composed with `head -1` and the caller's emptiness test: the first uid
that passes both selects is the result; a jq error aborts processing,
producing no further output; an empty first output line is an empty
result for the caller. -/
def shellScan (rtest : String → String → Bool) (branch : String) :
    List Deployment → Option String
  | [] => none
  | d :: rest =>
    match jqBranchFilter rtest d branch with
    | .error _ => none
    | .ok false => shellScan rtest branch rest
    | .ok true =>
      if d.state == some ("READY") || d.state == some ("BUILDING") then
        (if d.uid == "" then none else some d.uid)
      else shellScan rtest branch rest

/-- `check_existing_deployment` of `src/vercel.sh`, as a selection
function of the parsed deployment list and the branch. -/
def check_existing_deployment (rtest : String → String → Bool)
    (ds : List Deployment) (branch : String) : Option String :=
  shellScan rtest branch ds

/-- The selection predicate exactly as the specification phrases it:
the branch reference equals `B`, or the display name contains `B`
case-insensitively; and the state is exactly READY or BUILDING. -/
def specBranchStateMatch (d : Deployment) (B : String) : Prop :=
  (d.githubCommitRef = some B ∨
     ∃ n, d.name = some n ∧ caseInsensitiveContains n B = true) ∧
  (d.state = some ("READY") ∨ d.state = some ("BUILDING"))

/-- Characterization of `List.find?`: a successful linear search
returns the first element, in list order, satisfying the predicate. -/
theorem find?_eq_some_first {α : Type} (p : α → Bool) (l : List α) (a : α) :
    l.find? p = some a ↔
      p a = true ∧ ∃ pre post, l = pre ++ a :: post ∧ ∀ x ∈ pre, p x = false := by
  induction l with
  | nil =>
    constructor
    · intro h; simp at h
    · rintro ⟨-, pre, post, hl, -⟩
      cases pre <;> simp at hl
  | cons b t ih =>
    by_cases hb : p b = true
    · rw [List.find?_cons_of_pos _ hb]
      constructor
      · intro h
        have hba : b = a := by injection h
        subst hba
        exact ⟨hb, [], t, rfl, by intro x hx; cases hx⟩
      · rintro ⟨hpa, pre, post, hl, hpre⟩
        cases pre with
        | nil =>
          simp only [List.nil_append, List.cons.injEq] at hl
          exact congrArg some hl.1
        | cons c pre2 =>
          simp only [List.cons_append, List.cons.injEq] at hl
          obtain ⟨rfl, -⟩ := hl
          exact absurd hb (by simp [hpre b (by simp)])
    · have hb' : p b = false := by revert hb; cases p b <;> simp
      rw [List.find?_cons_of_neg _ hb]
      rw [ih]
      constructor
      · rintro ⟨hpa, pre, post, hl, hpre⟩
        refine ⟨hpa, b :: pre, post, by simp [hl], ?_⟩
        intro x hx
        rcases List.mem_cons.mp hx with rfl | hx2
        · exact hb'
        · exact hpre x hx2
      · rintro ⟨hpa, pre, post, hl, hpre⟩
        cases pre with
        | nil =>
          simp only [List.nil_append, List.cons.injEq] at hl
          obtain ⟨rfl, -⟩ := hl
          exact absurd hpa hb
        | cons c pre2 =>
          simp only [List.cons_append, List.cons.injEq] at hl
          obtain ⟨rfl, htl⟩ := hl
          exact ⟨hpa, pre2, post, htl, fun x hx => hpre x (List.mem_cons_of_mem _ hx)⟩

/-- The implementation's filter predicate coincides with the
specification's phrasing of it. -/
theorem deployMatches_iff_spec (d : Deployment) (B : String) :
    deployMatches d B = true ↔ specBranchStateMatch d B := by
  unfold deployMatches matchesBranch isActiveState specBranchStateMatch
  cases hn : d.name with
  | none => simp [hn]
  | some n => simp [hn]

/-- Boolean negation of the previous bridge, in the form the selection
proofs use. -/
theorem deployMatches_eq_false_iff (d : Deployment) (B : String) :
    deployMatches d B = false ↔ ¬ specBranchStateMatch d B := by
  rw [← deployMatches_iff_spec]
  cases deployMatches d B <;> simp

/-- Unfolding equation of `selectDeployment` for an empty search. -/
theorem selectDeployment_eq_none_of_find (L : List Deployment) (B : String)
    (hf : L.find? (fun d => deployMatches d B) = none) :
    selectDeployment L B = none := by
  unfold selectDeployment
  rw [hf]

/-- Unfolding equation of `selectDeployment` for a successful search. -/
theorem selectDeployment_eq_some_of_find (L : List Deployment) (B : String)
    (d0 : Deployment) (hf : L.find? (fun d => deployMatches d B) = some d0) :
    selectDeployment L B = if d0.uid == "" then none else some d0.uid := by
  unfold selectDeployment
  rw [hf]

/-- C1: the deployment-selection step returns the uid of the first
deployment, in input order, whose branch reference equals the branch or
whose display name contains it as a case-insensitive substring, and
whose state is exactly READY or BUILDING; it returns none when no
deployment satisfies both conjuncts.  (Stated for lists whose
deployments carry nonempty identifiers, matching the data model; the
source's `existingDeployment?.uid || null` maps an empty uid to null.) -/
theorem selectDeployment_first_match (L : List Deployment) (B : String)
    (h : ∀ d ∈ L, d.uid ≠ "") :
    (∀ u, selectDeployment L B = some u ↔
       ∃ pre d post, L = pre ++ d :: post ∧ d.uid = u ∧
         specBranchStateMatch d B ∧ ∀ x ∈ pre, ¬ specBranchStateMatch x B) ∧
    (selectDeployment L B = none ↔ ∀ d ∈ L, ¬ specBranchStateMatch d B) := by
  constructor
  · intro u
    cases hf : L.find? (fun d => deployMatches d B) with
    | none =>
      rw [selectDeployment_eq_none_of_find L B hf]
      rw [List.find?_eq_none] at hf
      constructor
      · intro hcontra; simp at hcontra
      · rintro ⟨pre, d, post, rfl, hu, hm, hpre⟩
        have hd : deployMatches d B = true := (deployMatches_iff_spec d B).mpr hm
        exact absurd hd (by simpa using hf d (by simp))
    | some d0 =>
      have hd0mem : d0 ∈ L := List.mem_of_find?_eq_some hf
      have huid : ¬ ((d0.uid == "") = true) := by
        simpa using h d0 hd0mem
      rw [selectDeployment_eq_some_of_find L B d0 hf, if_neg huid]
      obtain ⟨hp0, pre0, post0, hL0, hpre0⟩ := (find?_eq_some_first _ L d0).mp hf
      constructor
      · intro hu
        have hval : d0.uid = u := by injection hu
        exact ⟨pre0, d0, post0, hL0, hval, (deployMatches_iff_spec d0 B).mp hp0,
          fun x hx => (deployMatches_eq_false_iff x B).mp (hpre0 x hx)⟩
      · rintro ⟨pre, d, post, hL, hu, hm, hpre⟩
        have hfd : L.find? (fun d => deployMatches d B) = some d :=
          (find?_eq_some_first _ L d).mpr
            ⟨(deployMatches_iff_spec d B).mpr hm, pre, post, hL,
             fun x hx => (deployMatches_eq_false_iff x B).mpr (hpre x hx)⟩
        rw [hf] at hfd
        have hdd : d0 = d := by injection hfd
        subst hdd
        exact congrArg some hu
  · cases hf : L.find? (fun d => deployMatches d B) with
    | none =>
      rw [selectDeployment_eq_none_of_find L B hf]
      rw [List.find?_eq_none] at hf
      constructor
      · intro _ d hd
        exact (deployMatches_eq_false_iff d B).mp (by simpa using hf d hd)
      · intro _; rfl
    | some d0 =>
      have hd0mem : d0 ∈ L := List.mem_of_find?_eq_some hf
      have hp0 : deployMatches d0 B = true := ((find?_eq_some_first _ L d0).mp hf).1
      have huid : ¬ ((d0.uid == "") = true) := by simpa using h d0 hd0mem
      rw [selectDeployment_eq_some_of_find L B d0 hf, if_neg huid]
      constructor
      · intro hcontra; simp at hcontra
      · intro hall
        exact absurd ((deployMatches_iff_spec d0 B).mp hp0) (hall d0 hd0mem)

/-- Sample deployment in state ERROR for a matching branch. -/
def dErr : Deployment :=
  { uid := "d0", name := some ("pr-main"), githubCommitRef := some ("main"),
    state := some ("ERROR") }

/-- Sample deployment in state READY for a matching branch. -/
def dReady : Deployment :=
  { uid := "d1", name := some ("pr-main"), githubCommitRef := some ("main"),
    state := some ("READY") }

/-- Witness for C1 at a concrete list: the ERROR deployment is skipped
and the READY one is selected. -/
theorem selectDeployment_first_match_witness :
    (∀ d ∈ [dErr, dReady], d.uid ≠ "") ∧
      selectDeployment [dErr, dReady] ("main") = some ("d1") := by
  refine ⟨by decide, ?_⟩
  have h := selectDeployment_first_match [dErr, dReady] ("main") (by decide)
  refine (h.1 ("d1")).mpr ⟨[dErr], dReady, [], rfl, rfl, ⟨Or.inl rfl, Or.inl rfl⟩, ?_⟩
  intro x hx
  have hx' : x = dErr := by simpa using hx
  subst hx'
  rintro ⟨-, h2 | h2⟩ <;> simp [dErr] at h2

/-- Unfolding equation of `selectEnvVar` for an empty search. -/
theorem selectEnvVar_eq_none_of_find (E : List EnvVar)
    (hf : E.find? (fun v => v.key == "VITE_API_URL") = none) :
    selectEnvVar E = none := by
  unfold selectEnvVar
  rw [hf]

/-- Unfolding equation of `selectEnvVar` for a successful search. -/
theorem selectEnvVar_eq_some_of_find (E : List EnvVar) (v0 : EnvVar)
    (hf : E.find? (fun v => v.key == "VITE_API_URL") = some v0) :
    selectEnvVar E = if v0.id == "" then none else some v0.id := by
  unfold selectEnvVar
  rw [hf]

/-- C8: the env-var resolution step returns the identifier of the first
record whose key equals the constant VITE_API_URL, and none when no
record has that key; list order matters only through taking the first
match.  (Stated for lists whose records carry nonempty identifiers; the
source's `viteApiUrlEnv?.id || null` maps an empty id to null.) -/
theorem selectEnvVar_first_match (E : List EnvVar)
    (h : ∀ v ∈ E, v.id ≠ "") :
    (∀ i, selectEnvVar E = some i ↔
       ∃ pre v post, E = pre ++ v :: post ∧ v.id = i ∧ v.key = "VITE_API_URL" ∧
         ∀ w ∈ pre, w.key ≠ "VITE_API_URL") ∧
    (selectEnvVar E = none ↔ ∀ v ∈ E, v.key ≠ "VITE_API_URL") := by
  have hkey : ∀ (v : EnvVar), (v.key == "VITE_API_URL") = false ↔ v.key ≠ "VITE_API_URL" := by
    intro v
    cases hv : v.key == "VITE_API_URL" <;> simp_all
  constructor
  · intro i
    cases hf : E.find? (fun v => v.key == "VITE_API_URL") with
    | none =>
      rw [selectEnvVar_eq_none_of_find E hf]
      rw [List.find?_eq_none] at hf
      constructor
      · intro hcontra; simp at hcontra
      · rintro ⟨pre, v, post, rfl, hi, hk, hpre⟩
        exact absurd hk (by simpa using hf v (by simp))
    | some v0 =>
      have hv0mem : v0 ∈ E := List.mem_of_find?_eq_some hf
      have hid : ¬ ((v0.id == "") = true) := by simpa using h v0 hv0mem
      rw [selectEnvVar_eq_some_of_find E v0 hf, if_neg hid]
      obtain ⟨hp0, pre0, post0, hE0, hpre0⟩ := (find?_eq_some_first _ E v0).mp hf
      constructor
      · intro hi
        have hval : v0.id = i := by injection hi
        exact ⟨pre0, v0, post0, hE0, hval, by simpa using hp0,
          fun w hw => (hkey w).mp (hpre0 w hw)⟩
      · rintro ⟨pre, v, post, hE, hi, hk, hpre⟩
        have hfd : E.find? (fun v => v.key == "VITE_API_URL") = some v :=
          (find?_eq_some_first _ E v).mpr
            ⟨by simpa using hk, pre, post, hE, fun w hw => (hkey w).mpr (hpre w hw)⟩
        rw [hf] at hfd
        have hvv : v0 = v := by injection hfd
        subst hvv
        exact congrArg some hi
  · cases hf : E.find? (fun v => v.key == "VITE_API_URL") with
    | none =>
      rw [selectEnvVar_eq_none_of_find E hf]
      rw [List.find?_eq_none] at hf
      constructor
      · intro _ v hv
        exact (hkey v).mp (by simpa using hf v hv)
      · intro _; rfl
    | some v0 =>
      have hv0mem : v0 ∈ E := List.mem_of_find?_eq_some hf
      have hp0 : (v0.key == "VITE_API_URL") = true := ((find?_eq_some_first _ E v0).mp hf).1
      have hid : ¬ ((v0.id == "") = true) := by simpa using h v0 hv0mem
      rw [selectEnvVar_eq_some_of_find E v0 hf, if_neg hid]
      constructor
      · intro hcontra; simp at hcontra
      · intro hall
        exact absurd (by simpa using hp0) (hall v0 hv0mem)

/-- Sample env-var record with a different key. -/
def evOther : EnvVar := { id := "e0", key := "OTHER" }

/-- Sample env-var record with the target key. -/
def evVite : EnvVar := { id := "e1", key := "VITE_API_URL" }

/-- Witness for C8 at a concrete list: the first record with the target
key is selected, skipping the record with a different key. -/
theorem selectEnvVar_first_match_witness :
    (∀ v ∈ [evOther, evVite], v.id ≠ "") ∧
      selectEnvVar [evOther, evVite] = some ("e1") := by
  refine ⟨by decide, ?_⟩
  have h := selectEnvVar_first_match [evOther, evVite] (by decide)
  exact (h.1 ("e1")).mpr ⟨[evOther], evVite, [], rfl, rfl, rfl, by decide⟩

/-- C4: a failing LOOKUP call (listing deployments in step 1, or
listing env vars in step 2) aborts the run with exit code 1: the trace
stops at the failing listing request, no upsert or deploy request is
ever issued, and the failure is surfaced through the fatal error log
rather than treated as "no deployment found" / "not found". -/
theorem lookup_failure_aborts (e : Env) (api : Api)
    (hv : validateEnvironment e = .ok ()) :
    (∀ msg, api.getDeployments = .error msg →
       mainRun e api =
         { exitCode := 1,
           trace := [Request.listDeployments (e.VERCEL_PROJECT_ID.getD ("")) 50],
           errors := [("Failed to fetch deployments: " ++ msg)] }) ∧
    (∀ dsOpt msg, api.getDeployments = .ok dsOpt →
       api.getEnvironmentVariables = .error msg →
       mainRun e api =
         { exitCode := 1,
           trace := [Request.listDeployments (e.VERCEL_PROJECT_ID.getD ("")) 50,
                     Request.listEnvs (e.VERCEL_PROJECT_ID.getD (""))],
           errors := [("Failed to fetch environment variables: " ++ msg)] }) := by
  constructor
  · intro msg hd
    simp [mainRun, getConfig, hv, checkExistingDeployment, hd]
  · intro dsOpt msg hd he
    cases dsOpt <;>
      simp [mainRun, getConfig, hv, checkExistingDeployment, getEnvVarId, hd, he]

/-- A fully-populated process environment. -/
def envAll : Env :=
  { VERCEL_TOKEN := some ("tok"), VERCEL_PROJECT_ID := some ("prj"),
    VERCEL_ORG_ID := some ("org"), FE_BRANCH := some ("main") }

/-- A successful create/redeploy response without a url. -/
def okDeployResponse : DeployResponse := { url := none, uid := "new" }

/-- Api outcome where the deployment listing call rejects. -/
def apiListFails : Api :=
  { getDeployments := .error ("netdown"),
    getEnvironmentVariables := .ok (some []),
    createEnvironmentVariable := .ok (),
    editEnvironmentVariable := .ok (),
    createDeployment := .ok okDeployResponse,
    redeployDeployment := .ok okDeployResponse }

/-- Witness for C4: with a rejecting deployment listing, the concrete
run exits 1 having issued only the listing request. -/
theorem lookup_failure_aborts_witness :
    validateEnvironment envAll = .ok () ∧
      mainRun envAll apiListFails =
        { exitCode := 1,
          trace := [Request.listDeployments ("prj") 50],
          errors := [("Failed to fetch deployments: netdown")] } := by
  refine ⟨rfl, ?_⟩
  exact (lookup_failure_aborts envAll apiListFails rfl).1 ("netdown") rfl

/-- C5: with any of the four required inputs unset or empty, the run
exits 1 with a missing-configuration message before issuing any remote
request. -/
theorem missing_config_aborts (e : Env) (api : Api)
    (h : truthyStr e.VERCEL_TOKEN = false ∨ truthyStr e.VERCEL_PROJECT_ID = false ∨
         truthyStr e.VERCEL_ORG_ID = false ∨ truthyStr e.FE_BRANCH = false) :
    (mainRun e api).trace = [] ∧ (mainRun e api).exitCode = 1 ∧
    ∃ v ∈ (["VERCEL_TOKEN", "VERCEL_PROJECT_ID", "VERCEL_ORG_ID", "FE_BRANCH"] : List String),
      (mainRun e api).errors = [("Missing required environment variable: " ++ v)] := by
  cases ht : truthyStr e.VERCEL_TOKEN with
  | false =>
    refine ⟨?_, ?_, ⟨"VERCEL_TOKEN", by simp, ?_⟩⟩ <;>
      simp [mainRun, getConfig, validateEnvironment, ht]
  | true =>
    cases hp : truthyStr e.VERCEL_PROJECT_ID with
    | false =>
      refine ⟨?_, ?_, ⟨"VERCEL_PROJECT_ID", by simp, ?_⟩⟩ <;>
        simp [mainRun, getConfig, validateEnvironment, ht, hp]
    | true =>
      cases ho : truthyStr e.VERCEL_ORG_ID with
      | false =>
        refine ⟨?_, ?_, ⟨"VERCEL_ORG_ID", by simp, ?_⟩⟩ <;>
          simp [mainRun, getConfig, validateEnvironment, ht, hp, ho]
      | true =>
        cases hb : truthyStr e.FE_BRANCH with
        | false =>
          refine ⟨?_, ?_, ⟨"FE_BRANCH", by simp, ?_⟩⟩ <;>
            simp [mainRun, getConfig, validateEnvironment, ht, hp, ho, hb]
        | true =>
          rcases h with h | h | h | h <;> simp_all

/-- The environment with the branch input unset. -/
def envNoBranch : Env :=
  { VERCEL_TOKEN := some ("tok"), VERCEL_PROJECT_ID := some ("prj"),
    VERCEL_ORG_ID := some ("org"), FE_BRANCH := none }

/-- Api outcome where every call succeeds. -/
def apiAllOk : Api :=
  { getDeployments := .ok (some []),
    getEnvironmentVariables := .ok (some []),
    createEnvironmentVariable := .ok (),
    editEnvironmentVariable := .ok (),
    createDeployment := .ok okDeployResponse,
    redeployDeployment := .ok okDeployResponse }

/-- Witness for C5: a concrete run with FE_BRANCH unset exits 1 with an
empty trace and the missing-configuration message. -/
theorem missing_config_aborts_witness :
    truthyStr envNoBranch.FE_BRANCH = false ∧
      ((mainRun envNoBranch apiAllOk).trace = [] ∧
       (mainRun envNoBranch apiAllOk).exitCode = 1 ∧
       ∃ v ∈ (["VERCEL_TOKEN", "VERCEL_PROJECT_ID", "VERCEL_ORG_ID", "FE_BRANCH"] : List String),
         (mainRun envNoBranch apiAllOk).errors =
           [("Missing required environment variable: " ++ v)]) :=
  ⟨rfl, missing_config_aborts envNoBranch apiAllOk (Or.inr (Or.inr (Or.inr rfl)))⟩

/-- Api outcome where only the env-var create call rejects. -/
def apiUpsertFails : Api :=
  { getDeployments := .ok (some []),
    getEnvironmentVariables := .ok (some []),
    createEnvironmentVariable := .error ("boom"),
    editEnvironmentVariable := .ok (),
    createDeployment := .ok okDeployResponse,
    redeployDeployment := .ok okDeployResponse }

/-- C2 counterexample: at a concrete run whose env-var create call
fails, the process exits 1, the failure is logged through the fatal
error helper, and no deploy or redeploy request is ever issued — the
upsert failure aborts the run (the source's `error` helper calls
`exit(1)`) instead of letting execution proceed to the deploy step. -/
theorem upsert_failure_aborts_cex :
    (mainRun envAll apiUpsertFails).exitCode = 1 ∧
    (mainRun envAll apiUpsertFails).errors =
      [("Failed to update environment variable: boom")] ∧
    (mainRun envAll apiUpsertFails).trace.countP Request.isDeployCall = 0 :=
  ⟨rfl, rfl, rfl⟩

/-- C2 amended: a failing env-var upsert call (create or edit) is
logged through the fatal error helper and aborts the run with exit
code 1; the deploy/redeploy step is never reached. -/
theorem upsert_failure_aborts (e : Env) (api : Api) (msg : String)
    (hv : validateEnvironment e = .ok ())
    (hd : ∃ dsOpt, api.getDeployments = .ok dsOpt)
    (he : ∃ envsOpt, api.getEnvironmentVariables = .ok envsOpt)
    (hc : api.createEnvironmentVariable = .error msg)
    (hE : api.editEnvironmentVariable = .error msg) :
    (mainRun e api).exitCode = 1 ∧
    (mainRun e api).errors = [("Failed to update environment variable: " ++ msg)] ∧
    (mainRun e api).trace.countP Request.isDeployCall = 0 := by
  obtain ⟨dsOpt, hd⟩ := hd
  obtain ⟨envsOpt, he⟩ := he
  cases dsOpt with
  | none =>
    cases envsOpt with
    | none =>
      refine ⟨?_, ?_, ?_⟩ <;>
        simp [mainRun, getConfig, hv, checkExistingDeployment, getEnvVarId,
              updateEnvVar, hd, he, hc, hE, Request.isDeployCall]
    | some E =>
      cases hse : selectEnvVar E <;>
        refine ⟨?_, ?_, ?_⟩ <;>
          simp [mainRun, getConfig, hv, checkExistingDeployment, getEnvVarId,
                updateEnvVar, hd, he, hc, hE, hse, Request.isDeployCall]
  | some ds =>
    cases envsOpt with
    | none =>
      refine ⟨?_, ?_, ?_⟩ <;>
        simp [mainRun, getConfig, hv, checkExistingDeployment, getEnvVarId,
              updateEnvVar, hd, he, hc, hE, Request.isDeployCall]
    | some E =>
      cases hse : selectEnvVar E <;>
        refine ⟨?_, ?_, ?_⟩ <;>
          simp [mainRun, getConfig, hv, checkExistingDeployment, getEnvVarId,
                updateEnvVar, hd, he, hc, hE, hse, Request.isDeployCall]

/-- Api outcome where both env-var upsert variants reject. -/
def apiUpsertBothFail : Api :=
  { getDeployments := .ok (some []),
    getEnvironmentVariables := .ok (some []),
    createEnvironmentVariable := .error ("boom"),
    editEnvironmentVariable := .error ("boom"),
    createDeployment := .ok okDeployResponse,
    redeployDeployment := .ok okDeployResponse }

/-- Witness for the amended C2 at a concrete run. -/
theorem upsert_failure_aborts_witness :
    validateEnvironment envAll = .ok () ∧
      ((mainRun envAll apiUpsertBothFail).exitCode = 1 ∧
       (mainRun envAll apiUpsertBothFail).errors =
         [("Failed to update environment variable: boom")] ∧
       (mainRun envAll apiUpsertBothFail).trace.countP Request.isDeployCall = 0) :=
  ⟨rfl, upsert_failure_aborts envAll apiUpsertBothFail ("boom") rfl
    ⟨some [], rfl⟩ ⟨some [], rfl⟩ rfl rfl⟩

/-- C3: when step 1 found an existing deployment identifier and the
redeploy call fails, the run falls back exactly once to the
create-new-deployment request for the same branch and project (one
createDeploy request in the whole trace, immediately after the failed
redeploy) instead of surfacing the redeploy error; a failure of that
fallback create is itself fatal (exit 1), while its success completes
the run (exit 0). -/
theorem redeploy_failure_falls_back (e : Env) (api : Api)
    (L : List Deployment) (E : List EnvVar) (depId msg : String)
    (hv : validateEnvironment e = .ok ())
    (hd : api.getDeployments = .ok (some L))
    (hsel : selectDeployment L (e.FE_BRANCH.getD ("")) = some depId)
    (he : api.getEnvironmentVariables = .ok (some E))
    (hcr : api.createEnvironmentVariable = .ok ())
    (hed : api.editEnvironmentVariable = .ok ())
    (hrd : api.redeployDeployment = .error msg) :
    (mainRun e api).trace =
      [Request.listDeployments (e.VERCEL_PROJECT_ID.getD ("")) 50,
       Request.listEnvs (e.VERCEL_PROJECT_ID.getD ("")),
       upsertRequest (e.VERCEL_PROJECT_ID.getD ("")) (selectEnvVar E)
         ("https://api.pr-" ++ e.FE_BRANCH.getD ("") ++ ".deploy-preview.mrdibre.com"),
       Request.redeploy depId ("preview"),
       createDeployRequest (e.VERCEL_PROJECT_ID.getD ("")) (e.FE_BRANCH.getD (""))] ∧
    (mainRun e api).trace.countP Request.isCreateDeploy = 1 ∧
    (∀ m2, api.createDeployment = .error m2 →
       (mainRun e api).exitCode = 1 ∧
       (mainRun e api).errors = [("Failed to create new deployment: " ++ m2)]) ∧
    (∀ r, api.createDeployment = .ok r → (mainRun e api).exitCode = 0) := by
  cases hcd : api.createDeployment with
  | error m2 =>
    cases hse : selectEnvVar E <;>
      refine ⟨?_, ?_, ?_, ?_⟩ <;>
        simp [mainRun, getConfig, hv, checkExistingDeployment, getEnvVarId,
              updateEnvVar, createDeployment, redeployExisting, createDeployRequest,
              upsertRequest, hd, he, hcr, hed, hrd, hsel, hse, hcd,
              Request.isCreateDeploy]
  | ok r =>
    cases hse : selectEnvVar E <;>
      refine ⟨?_, ?_, ?_, ?_⟩ <;>
        simp [mainRun, getConfig, hv, checkExistingDeployment, getEnvVarId,
              updateEnvVar, createDeployment, redeployExisting, createDeployRequest,
              upsertRequest, hd, he, hcr, hed, hrd, hsel, hse, hcd,
              Request.isCreateDeploy]

/-- Api outcome where only the redeploy call rejects, with an existing
READY deployment for the branch. -/
def apiRedeployFails : Api :=
  { getDeployments := .ok (some [dReady]),
    getEnvironmentVariables := .ok (some []),
    createEnvironmentVariable := .ok (),
    editEnvironmentVariable := .ok (),
    createDeployment := .ok okDeployResponse,
    redeployDeployment := .error ("redfail") }

/-- Witness for C3 at a concrete run: the fallback create request is
issued exactly once and, since it succeeds, the run exits 0. -/
theorem redeploy_failure_falls_back_witness :
    selectDeployment [dReady] ("main") = some ("d1") ∧
      (mainRun envAll apiRedeployFails).trace.countP Request.isCreateDeploy = 1 ∧
      (mainRun envAll apiRedeployFails).exitCode = 0 := by
  have h := redeploy_failure_falls_back envAll apiRedeployFails [dReady] [] ("d1")
    ("redfail") rfl rfl rfl rfl rfl rfl rfl
  exact ⟨rfl, h.2.1, h.2.2.2 okDeployResponse rfl⟩

/-- Helper: with lookups succeeding and no existing env-var identifier,
the run issues exactly one create-env request (with the derived body)
and no edit request, whatever the later steps do. -/
theorem upsert_counts_create (e : Env) (api : Api) (E : List EnvVar)
    (hv : validateEnvironment e = .ok ())
    (hd : ∃ dsOpt, api.getDeployments = .ok dsOpt)
    (he : api.getEnvironmentVariables = .ok (some E))
    (hse : selectEnvVar E = none) :
    (mainRun e api).trace.countP Request.isCreateEnv = 1 ∧
    (mainRun e api).trace.countP Request.isEditEnv = 0 ∧
    Request.createEnvVar (e.VERCEL_PROJECT_ID.getD (""))
      { key := "VITE_API_URL",
        value := "https://api.pr-" ++ e.FE_BRANCH.getD ("") ++ ".deploy-preview.mrdibre.com",
        type := "plain", target := ["preview"] } ∈ (mainRun e api).trace := by
  obtain ⟨dsOpt, hd⟩ := hd
  cases dsOpt with
  | none =>
    cases hc : api.createEnvironmentVariable with
    | error m =>
      refine ⟨?_, ?_, ?_⟩ <;>
        simp_all [mainRun, getConfig, checkExistingDeployment, getEnvVarId,
                  updateEnvVar, createDeployment, redeployExisting, createDeployRequest, envBody,
                  Request.isCreateEnv, Request.isEditEnv]
    | ok u =>
      cases hcd : api.createDeployment <;>
        refine ⟨?_, ?_, ?_⟩ <;>
          simp_all [mainRun, getConfig, checkExistingDeployment, getEnvVarId,
                    updateEnvVar, createDeployment, redeployExisting, createDeployRequest, envBody,
                    Request.isCreateEnv, Request.isEditEnv]
  | some ds =>
    cases hex : selectDeployment ds (e.FE_BRANCH.getD ("")) with
    | none =>
      cases hc : api.createEnvironmentVariable with
      | error m =>
        refine ⟨?_, ?_, ?_⟩ <;>
          simp_all [mainRun, getConfig, checkExistingDeployment, getEnvVarId,
                    updateEnvVar, createDeployment, redeployExisting, createDeployRequest, envBody,
                    Request.isCreateEnv, Request.isEditEnv]
      | ok u =>
        cases hcd : api.createDeployment <;>
          refine ⟨?_, ?_, ?_⟩ <;>
            simp_all [mainRun, getConfig, checkExistingDeployment, getEnvVarId,
                      updateEnvVar, createDeployment, redeployExisting, createDeployRequest, envBody,
                      Request.isCreateEnv, Request.isEditEnv]
    | some dep =>
      cases hc : api.createEnvironmentVariable with
      | error m =>
        refine ⟨?_, ?_, ?_⟩ <;>
          simp_all [mainRun, getConfig, checkExistingDeployment, getEnvVarId,
                    updateEnvVar, createDeployment, redeployExisting, createDeployRequest, envBody,
                    Request.isCreateEnv, Request.isEditEnv]
      | ok u =>
        cases hred : api.redeployDeployment with
        | ok r =>
          refine ⟨?_, ?_, ?_⟩ <;>
            simp_all [mainRun, getConfig, checkExistingDeployment, getEnvVarId,
                      updateEnvVar, createDeployment, redeployExisting, createDeployRequest, envBody,
                      Request.isCreateEnv, Request.isEditEnv]
        | error m =>
          cases hcd : api.createDeployment <;>
            refine ⟨?_, ?_, ?_⟩ <;>
              simp_all [mainRun, getConfig, checkExistingDeployment, getEnvVarId,
                        updateEnvVar, createDeployment, redeployExisting, createDeployRequest, envBody,
                        Request.isCreateEnv, Request.isEditEnv]

/-- Helper: with lookups succeeding and an existing env-var identifier,
the run issues exactly one edit-env request to that identifier (with
the derived body) and no create request, whatever the later steps do. -/
theorem upsert_counts_edit (e : Env) (api : Api) (E : List EnvVar) (i : String)
    (hv : validateEnvironment e = .ok ())
    (hd : ∃ dsOpt, api.getDeployments = .ok dsOpt)
    (he : api.getEnvironmentVariables = .ok (some E))
    (hse : selectEnvVar E = some i) :
    (mainRun e api).trace.countP Request.isEditEnv = 1 ∧
    (mainRun e api).trace.countP Request.isCreateEnv = 0 ∧
    Request.editEnvVar (e.VERCEL_PROJECT_ID.getD ("")) i
      { key := "VITE_API_URL",
        value := "https://api.pr-" ++ e.FE_BRANCH.getD ("") ++ ".deploy-preview.mrdibre.com",
        type := "plain", target := ["preview"] } ∈ (mainRun e api).trace := by
  obtain ⟨dsOpt, hd⟩ := hd
  cases dsOpt with
  | none =>
    cases hc : api.editEnvironmentVariable with
    | error m =>
      refine ⟨?_, ?_, ?_⟩ <;>
        simp_all [mainRun, getConfig, checkExistingDeployment, getEnvVarId,
                  updateEnvVar, createDeployment, redeployExisting, createDeployRequest, envBody,
                  Request.isCreateEnv, Request.isEditEnv]
    | ok u =>
      cases hcd : api.createDeployment <;>
        refine ⟨?_, ?_, ?_⟩ <;>
          simp_all [mainRun, getConfig, checkExistingDeployment, getEnvVarId,
                    updateEnvVar, createDeployment, redeployExisting, createDeployRequest, envBody,
                    Request.isCreateEnv, Request.isEditEnv]
  | some ds =>
    cases hex : selectDeployment ds (e.FE_BRANCH.getD ("")) with
    | none =>
      cases hc : api.editEnvironmentVariable with
      | error m =>
        refine ⟨?_, ?_, ?_⟩ <;>
          simp_all [mainRun, getConfig, checkExistingDeployment, getEnvVarId,
                    updateEnvVar, createDeployment, redeployExisting, createDeployRequest, envBody,
                    Request.isCreateEnv, Request.isEditEnv]
      | ok u =>
        cases hcd : api.createDeployment <;>
          refine ⟨?_, ?_, ?_⟩ <;>
            simp_all [mainRun, getConfig, checkExistingDeployment, getEnvVarId,
                      updateEnvVar, createDeployment, redeployExisting, createDeployRequest, envBody,
                      Request.isCreateEnv, Request.isEditEnv]
    | some dep =>
      cases hc : api.editEnvironmentVariable with
      | error m =>
        refine ⟨?_, ?_, ?_⟩ <;>
          simp_all [mainRun, getConfig, checkExistingDeployment, getEnvVarId,
                    updateEnvVar, createDeployment, redeployExisting, createDeployRequest, envBody,
                    Request.isCreateEnv, Request.isEditEnv]
      | ok u =>
        cases hred : api.redeployDeployment with
        | ok r =>
          refine ⟨?_, ?_, ?_⟩ <;>
            simp_all [mainRun, getConfig, checkExistingDeployment, getEnvVarId,
                      updateEnvVar, createDeployment, redeployExisting, createDeployRequest, envBody,
                      Request.isCreateEnv, Request.isEditEnv]
        | error m =>
          cases hcd : api.createDeployment <;>
            refine ⟨?_, ?_, ?_⟩ <;>
              simp_all [mainRun, getConfig, checkExistingDeployment, getEnvVarId,
                        updateEnvVar, createDeployment, redeployExisting, createDeployRequest, envBody,
                        Request.isCreateEnv, Request.isEditEnv]

/-- C6: the upsert step issues exactly one create request with
{key = VITE_API_URL, value = derived URL, type = plain,
target = [preview]} when no identifier was found, and exactly one edit
request to the found identifier with the same body otherwise; hence a
second run whose env-var listing now contains a VITE_API_URL record
(with a nonempty id) issues an edit, not a second create, so no
duplicate record is created. -/
theorem upsert_exactly_once (e : Env) (api : Api) (E : List EnvVar)
    (hv : validateEnvironment e = .ok ())
    (hd : ∃ dsOpt, api.getDeployments = .ok dsOpt)
    (he : api.getEnvironmentVariables = .ok (some E)) :
    (selectEnvVar E = none →
       (mainRun e api).trace.countP Request.isCreateEnv = 1 ∧
       (mainRun e api).trace.countP Request.isEditEnv = 0 ∧
       Request.createEnvVar (e.VERCEL_PROJECT_ID.getD (""))
         { key := "VITE_API_URL",
           value := "https://api.pr-" ++ e.FE_BRANCH.getD ("") ++ ".deploy-preview.mrdibre.com",
           type := "plain", target := ["preview"] } ∈ (mainRun e api).trace) ∧
    (∀ i, selectEnvVar E = some i →
       (mainRun e api).trace.countP Request.isEditEnv = 1 ∧
       (mainRun e api).trace.countP Request.isCreateEnv = 0 ∧
       Request.editEnvVar (e.VERCEL_PROJECT_ID.getD ("")) i
         { key := "VITE_API_URL",
           value := "https://api.pr-" ++ e.FE_BRANCH.getD ("") ++ ".deploy-preview.mrdibre.com",
           type := "plain", target := ["preview"] } ∈ (mainRun e api).trace) ∧
    (∀ (api2 : Api) (E2 : List EnvVar) (v : EnvVar),
       (∃ dsOpt2, api2.getDeployments = .ok dsOpt2) →
       api2.getEnvironmentVariables = .ok (some E2) →
       E2.find? (fun w => w.key == "VITE_API_URL") = some v → v.id ≠ "" →
       (mainRun e api2).trace.countP Request.isEditEnv = 1 ∧
       (mainRun e api2).trace.countP Request.isCreateEnv = 0) := by
  refine ⟨fun hse => upsert_counts_create e api E hv hd he hse,
          fun i hse => upsert_counts_edit e api E i hv hd he hse,
          fun api2 E2 v hd2 he2 hf2 hid2 => ?_⟩
  have hse2 : selectEnvVar E2 = some v.id := by
    rw [selectEnvVar_eq_some_of_find E2 v hf2, if_neg (by simpa using hid2)]
  have h := upsert_counts_edit e api2 E2 v.id hv hd2 he2 hse2
  exact ⟨h.1, h.2.1⟩

/-- Api outcome of a second run: the env-var listing now contains the
VITE_API_URL record created by the first run. -/
def apiSecondRun : Api :=
  { getDeployments := .ok (some []),
    getEnvironmentVariables := .ok (some [evVite]),
    createEnvironmentVariable := .ok (),
    editEnvironmentVariable := .ok (),
    createDeployment := .ok okDeployResponse,
    redeployDeployment := .ok okDeployResponse }

/-- Witness for C6 at concrete runs: the first run (no existing record)
issues one create, and the second run (record present) issues one edit
and no create. -/
theorem upsert_exactly_once_witness :
    validateEnvironment envAll = .ok () ∧
      (mainRun envAll apiAllOk).trace.countP Request.isCreateEnv = 1 ∧
      (mainRun envAll apiSecondRun).trace.countP Request.isEditEnv = 1 ∧
      (mainRun envAll apiSecondRun).trace.countP Request.isCreateEnv = 0 := by
  have h := upsert_exactly_once envAll apiAllOk [] rfl ⟨some [], rfl⟩ rfl
  have h3 := h.2.2 apiSecondRun [evVite] evVite ⟨some [], rfl⟩ rfl rfl (by decide)
  exact ⟨rfl, (h.1 rfl).1, h3.1, h3.2⟩

/-- C7: for every branch B, the derived target API URL is the plain
concatenation of the fixed pieces around B (no escaping or other
transformation of B), and the create-deployment request for B carries
the display name pr-B with the github ref B. -/
theorem derived_naming (e : Env) (B : String) (c : Config)
    (hB : e.FE_BRANCH = some B) (hc : getConfig e = .ok c) :
    c.targetApiUrl = "https://api.pr-" ++ B ++ ".deploy-preview.mrdibre.com" ∧
    c.branch = B ∧
    createDeployRequest c.projectId c.branch =
      Request.createDeploy ("pr-" ++ B) c.projectId ("preview")
        { type := "github", ref := B } := by
  cases hvv : validateEnvironment e with
  | error m => simp [getConfig, hvv] at hc
  | ok u =>
    simp only [getConfig, hvv] at hc
    injection hc with h
    subst h
    simp [createDeployRequest, hB]

/-- The configuration record a fully-populated environment produces. -/
def cMain : Config :=
  { token := "tok", projectId := "prj", orgId := "org", branch := "main",
    targetApiUrl := "https://api.pr-main.deploy-preview.mrdibre.com" }

/-- Witness for C7 at a concrete environment. -/
theorem derived_naming_witness :
    cMain.targetApiUrl = "https://api.pr-" ++ ("main") ++ ".deploy-preview.mrdibre.com" ∧
    cMain.branch = ("main") ∧
    createDeployRequest cMain.projectId cMain.branch =
      Request.createDeploy ("pr-" ++ ("main")) cMain.projectId ("preview")
        { type := "github", ref := ("main") } :=
  derived_naming envAll ("main") cMain rfl rfl

/-- C10: a listing response without a deployments field is treated as
no existing deployment rather than as an error: the lookup step yields
null without aborting, and (the remaining lookups and the upsert
succeeding) the run proceeds to the create-new-deployment path, issuing
no redeploy request. -/
theorem absent_deployments_proceeds (e : Env) (api : Api)
    (envsOpt : Option (List EnvVar))
    (hv : validateEnvironment e = .ok ())
    (hd : api.getDeployments = .ok none)
    (he : api.getEnvironmentVariables = .ok envsOpt)
    (hcr : api.createEnvironmentVariable = .ok ())
    (hed : api.editEnvironmentVariable = .ok ()) :
    (checkExistingDeployment api (e.VERCEL_PROJECT_ID.getD ("")) (e.FE_BRANCH.getD (""))).2 =
      .ok none ∧
    createDeployRequest (e.VERCEL_PROJECT_ID.getD ("")) (e.FE_BRANCH.getD ("")) ∈
      (mainRun e api).trace ∧
    (mainRun e api).trace.countP Request.isRedeploy = 0 := by
  cases envsOpt with
  | none =>
    cases hcd : api.createDeployment <;>
      refine ⟨?_, ?_, ?_⟩ <;>
        simp_all [mainRun, getConfig, checkExistingDeployment, getEnvVarId, updateEnvVar,
                  createDeployment, redeployExisting, createDeployRequest, envBody,
                  Request.isRedeploy]
  | some E =>
    cases hse : selectEnvVar E <;>
      cases hcd : api.createDeployment <;>
        refine ⟨?_, ?_, ?_⟩ <;>
          simp_all [mainRun, getConfig, checkExistingDeployment, getEnvVarId, updateEnvVar,
                    createDeployment, redeployExisting, createDeployRequest, envBody,
                    Request.isRedeploy]

/-- Api outcome whose deployment listing succeeds without a
deployments field. -/
def apiNoDeployments : Api :=
  { getDeployments := .ok none,
    getEnvironmentVariables := .ok (some []),
    createEnvironmentVariable := .ok (),
    editEnvironmentVariable := .ok (),
    createDeployment := .ok okDeployResponse,
    redeployDeployment := .ok okDeployResponse }

/-- Witness for C10 at a concrete run. -/
theorem absent_deployments_proceeds_witness :
    (checkExistingDeployment apiNoDeployments ("prj") ("main")).2 = .ok none ∧
    createDeployRequest ("prj") ("main") ∈ (mainRun envAll apiNoDeployments).trace ∧
    (mainRun envAll apiNoDeployments).trace.countP Request.isRedeploy = 0 :=
  absent_deployments_proceeds envAll apiNoDeployments (some []) rfl rfl rfl rfl rfl

/-- The shell filter, as written, can never select a deployment: for
every regex matcher, list, and branch, the first select's argument
pipes the boolean produced by the or into jq's `test`, which raises a
runtime error at the first deployment, so the program outputs nothing
(and on the empty list there is nothing to output). -/
theorem shell_selection_always_none (rtest : String → String → Bool)
    (ds : List Deployment) (branch : String) :
    check_existing_deployment rtest ds branch = none := by
  cases ds with
  | nil => rfl
  | cons d rest => rfl

/-- C9 divergence at a concrete input: for branch main and a single
READY deployment of that branch, the TypeScript selection returns the
deployment's uid while the shell's jq filter errors (a boolean piped
into test, by jq's loosest-binding pipe) and selects nothing — so the
two near-duplicate implementations do not compute the same selection
function.  Stated with a concrete regex matcher; the shell side is
independent of it. -/
theorem shell_ts_selection_differ :
    selectDeployment [dReady] ("main") = some ("d1") ∧
    check_existing_deployment (fun s pat => s == pat) [dReady] ("main") = none ∧
    check_existing_deployment (fun s pat => s == pat) [dReady] ("main") ≠
      selectDeployment [dReady] ("main") := by
  refine ⟨rfl, rfl, ?_⟩
  decide
